import Mathlib

/-!
Verification of the AGM device lifecycle manager (`src/service/src/device.c`,
tinyalsa backend, i.e. the `#else` branches of `DEVICE_USES_ALSALIB`).

The per-device operations are modelled as pure functions on a `device_obj`
record.  Driver calls (`pcm_open`, `pcm_prepare`, `pcm_stop`, `pcm_close`) and
sysfs notifications are recorded as events; the success of a driver call is an
oracle `Bool` argument.  A C execution that dereferences a null pointer or
divides by zero never returns, so such paths are modelled as `Except.error`
with a `crash_kind`.  Failing driver calls other than `pcm_open` (whose error
the code itself maps to `-EIO_ERR`) are modelled as returning `-1`; the code
passes the driver's return value through unchanged and no property here
depends on its exact value.
-/

/- Error numbers used by the code (returned negated, as in C). -/
def EINVAL : Int := 22
def EAGAIN : Int := 11
def ENODEV : Int := 19
def EIO_ERR : Int := 5

/- Constants from device.c. -/
def MAX_PERIOD_BUFFER : Nat := 8192
def DEFAULT_PERIOD_COUNT : Nat := 2
def MAX_RETRY : Nat := 100
def DEVICE_ENABLE : Nat := 1
def DEVICE_DISABLE : Nat := 0
def INT_MAX : Int := 2147483647

/-- Modelled from the spec: `enum agm_media_format` lives in `agm/media.h`,
which is not part of this tree.  The switch statements in device.c name the
five PCM constants below; `AGM_FORMAT_INVALID` (value 0, the calloc default)
stands for every other enumerator, all of which fall into the `default`
arms. -/
inductive agm_media_format where
  | AGM_FORMAT_INVALID
  | AGM_FORMAT_PCM_S8
  | AGM_FORMAT_PCM_S16_LE
  | AGM_FORMAT_PCM_S24_3LE
  | AGM_FORMAT_PCM_S24_LE
  | AGM_FORMAT_PCM_S32_LE
  deriving DecidableEq

/-- tinyalsa's `enum pcm_format`, restricted to the constants device.c uses. -/
inductive pcm_format where
  | PCM_FORMAT_S8
  | PCM_FORMAT_S16_LE
  | PCM_FORMAT_S24_3LE
  | PCM_FORMAT_S24_LE
  | PCM_FORMAT_S32_LE
  deriving DecidableEq

/-- device.c lines 94-117. -/
def get_pcm_bits_per_sample (fmt_id : agm_media_format) : Nat :=
  match fmt_id with
  | .AGM_FORMAT_PCM_S8 => 8
  | .AGM_FORMAT_PCM_S24_LE => 32
  | .AGM_FORMAT_PCM_S24_3LE => 24
  | .AGM_FORMAT_PCM_S32_LE => 32
  | .AGM_FORMAT_PCM_S16_LE => 16
  | .AGM_FORMAT_INVALID => 16

/-- device.c lines 250-265. -/
def agm_to_pcm_format (format : agm_media_format) : pcm_format :=
  match format with
  | .AGM_FORMAT_PCM_S32_LE => .PCM_FORMAT_S32_LE
  | .AGM_FORMAT_PCM_S8 => .PCM_FORMAT_S8
  | .AGM_FORMAT_PCM_S24_3LE => .PCM_FORMAT_S24_3LE
  | .AGM_FORMAT_PCM_S24_LE => .PCM_FORMAT_S24_LE
  | .AGM_FORMAT_PCM_S16_LE => .PCM_FORMAT_S16_LE
  | .AGM_FORMAT_INVALID => .PCM_FORMAT_S16_LE

/-- Modelled from the spec: `enum device_state` is declared in `agm/device.h`,
which is not under src/.  Spec section 4.2 fixes the order
CLOSED -> OPENED -> PREPARED -> STARTED <-> STOPPED, with `device_start`
requiring `state >= DEV_PREPARED` and STOPPED re-enterable into STARTED
without re-preparing, so STOPPED compares above PREPARED. -/
inductive device_state where
  | DEV_CLOSED
  | DEV_OPENED
  | DEV_PREPARED
  | DEV_STARTED
  | DEV_STOPPED
  deriving DecidableEq

/-- Numeric value of the state enumerators, used for the `<` comparison in
`device_start`. -/
def device_state.toNat : device_state → Nat
  | .DEV_CLOSED => 0
  | .DEV_OPENED => 1
  | .DEV_PREPARED => 2
  | .DEV_STARTED => 3
  | .DEV_STOPPED => 4

/-- `struct agm_media_config` (from `agm/device.h`; field set is visible from
the accesses in device.c lines 287-292 and 496-499). -/
structure agm_media_config where
  rate : Nat
  channels : Nat
  format : agm_media_format
  data_format : Nat
  deriving DecidableEq

/-- The `struct pcm_config` that `device_open` hands to `pcm_open`
(device.c lines 287-299). -/
structure pcm_config where
  channels : Nat
  rate : Nat
  format : pcm_format
  period_size : Nat
  period_count : Nat
  start_threshold : Nat
  stop_threshold : Int
  deriving DecidableEq

/-- Driver calls and sysfs notifications performed by the lifecycle
operations, in program order. -/
inductive dev_event where
  | pcm_open (cfg : pcm_config)
  | pcm_prepare
  | pcm_stop
  | pcm_close
  | sysfs_write (pcm_id : Nat) (st : Nat)
  deriving DecidableEq

/-- Ways a lifecycle call can abort instead of returning: dereferencing a
null pointer, or the integer division by zero in `device_open`'s period-size
computation. -/
inductive crash_kind where
  | null_deref
  | div_by_zero
  deriving DecidableEq

/-- `struct device_obj`.  Modelled from the spec: the struct itself is in
`agm/device.h`, not under src/; the fields are the ones device.c reads and
writes.  Spec section 3 describes the three refcounts as integers that the
reference implementation lets underflow below zero (section 9), so they are
`Int` here.  The `pcm` handle is `some ()` exactly while a driver handle is
held (spec section 3: `driver_handle` is null while `open_count == 0`). -/
structure device_obj where
  card_id : Nat
  pcm_id : Nat
  state : device_state
  open_cnt : Int
  prepare_cnt : Int
  start_cnt : Int
  media_config : agm_media_config
  pcm : Option Unit
  metadata : Option Nat
  params : Option Nat
  deriving DecidableEq

/-- A device object as discovery creates it: `calloc` zero-fills the struct,
so the state is `DEV_CLOSED` (enumerator 0), all refcounts are 0, the media
config is all-zero and no handle/blob is held. -/
def init_device_obj (card pcmid : Nat) (cfg : agm_media_config) : device_obj :=
  { card_id := card
    pcm_id := pcmid
    state := .DEV_CLOSED
    open_cnt := 0
    prepare_cnt := 0
    start_cnt := 0
    media_config := cfg
    pcm := none
    metadata := none
    params := none }

/-- The all-zero media config a freshly calloc'ed device carries before
`device_set_media_config` is ever called. -/
def zero_media_config : agm_media_config :=
  { rate := 0, channels := 0, format := .AGM_FORMAT_INVALID, data_format := 0 }

/-- The `struct pcm_config` the first opener fills in and hands to
`pcm_open` (device.c lines 287-295). -/
def open_request_of (d : device_obj) : pcm_config :=
  { channels := d.media_config.channels
    rate := d.media_config.rate
    format := agm_to_pcm_format d.media_config.format
    period_size := MAX_PERIOD_BUFFER /
      (d.media_config.channels * (get_pcm_bits_per_sample d.media_config.format / 8))
    period_count := DEFAULT_PERIOD_COUNT
    start_threshold := MAX_PERIOD_BUFFER /
      (d.media_config.channels * (get_pcm_bits_per_sample d.media_config.format / 8)) / 4
    stop_threshold := INT_MAX }

/-- Body of `device_open` under the lock, device.c lines 279-313
(tinyalsa branch).  `drv_ok` is the outcome of `pcm_open`/`pcm_is_ready`.
When `channels * (bits_per_sample/8) = 0` the C expression
`8192 / (channels * (bits/8))` divides by zero. -/
def device_open_locked (d : device_obj) (drv_ok : Bool) :
    Except crash_kind (Int × device_obj × List dev_event) :=
  if d.open_cnt ≠ 0 then
    .ok (0, { d with open_cnt := d.open_cnt + 1 }, [])
  else
    if d.media_config.channels * (get_pcm_bits_per_sample d.media_config.format / 8) = 0 then
      .error .div_by_zero
    else
      if drv_ok then
        .ok (0,
          { d with pcm := some (), state := .DEV_OPENED, open_cnt := d.open_cnt + 1 },
          [.pcm_open (open_request_of d), .sysfs_write d.pcm_id DEVICE_ENABLE])
      else
        .ok (-EIO_ERR, d, [.pcm_open (open_request_of d)])

/-- `device_open`, device.c lines 267-315: null check, then the locked body. -/
def device_open (dev_obj : Option device_obj) (drv_ok : Bool) :
    Except crash_kind (Int × Option device_obj × List dev_event) :=
  match dev_obj with
  | none => .ok (-EINVAL, none, [])
  | some d =>
    match device_open_locked d drv_ok with
    | .error k => .error k
    | .ok (r, d', evs) => .ok (r, some d', evs)

/-- Body of `device_prepare` under the lock, device.c lines 327-351.
`pcm_prepare` on a device that holds no driver handle dereferences an
invalid `pcm` pointer. -/
def device_prepare_locked (d : device_obj) (drv_ok : Bool) :
    Except crash_kind (Int × device_obj × List dev_event) :=
  if d.prepare_cnt ≠ 0 then
    .ok (0, { d with prepare_cnt := d.prepare_cnt + 1 }, [])
  else
    match d.pcm with
    | none => .error .null_deref
    | some _ =>
      if drv_ok then
        .ok (0, { d with state := .DEV_PREPARED, prepare_cnt := d.prepare_cnt + 1 },
          [.pcm_prepare])
      else
        .ok (-1, d, [.pcm_prepare])

/-- `device_prepare`, device.c lines 318-352. -/
def device_prepare (dev_obj : Option device_obj) (drv_ok : Bool) :
    Except crash_kind (Int × Option device_obj × List dev_event) :=
  match dev_obj with
  | none => .ok (-EINVAL, none, [])
  | some d =>
    match device_prepare_locked d drv_ok with
    | .error k => .error k
    | .ok (r, d', evs) => .ok (r, some d', evs)

/-- Body of `device_start` under the lock, device.c lines 363-382.  It makes
no driver call at all: starting is a pure state/refcount transition. -/
def device_start_locked (d : device_obj) :
    Except crash_kind (Int × device_obj × List dev_event) :=
  if d.state.toNat < device_state.DEV_PREPARED.toNat then
    .ok (-1, d, [])
  else
    if d.start_cnt ≠ 0 then
      .ok (0, { d with start_cnt := d.start_cnt + 1 }, [])
    else
      .ok (0, { d with state := .DEV_STARTED, start_cnt := d.start_cnt + 1 }, [])

/-- `device_start`, device.c lines 354-384. -/
def device_start (dev_obj : Option device_obj) :
    Except crash_kind (Int × Option device_obj × List dev_event) :=
  match dev_obj with
  | none => .ok (-EINVAL, none, [])
  | some d =>
    match device_start_locked d with
    | .error k => .error k
    | .ok (r, d', evs) => .ok (r, some d', evs)

/-- Body of `device_stop` under the lock, device.c lines 395-417.  The state
is set to `DEV_STOPPED` whether or not `pcm_stop` succeeds. -/
def device_stop_locked (d : device_obj) (drv_ok : Bool) :
    Except crash_kind (Int × device_obj × List dev_event) :=
  if d.start_cnt = 0 then
    .ok (0, d, [])
  else
    if d.start_cnt - 1 = 0 then
      match d.pcm with
      | none => .error .null_deref
      | some _ =>
        .ok (if drv_ok then 0 else -1,
          { d with start_cnt := d.start_cnt - 1, state := .DEV_STOPPED }, [.pcm_stop])
    else
      .ok (0, { d with start_cnt := d.start_cnt - 1 }, [])

/-- `device_stop`, device.c lines 386-419. -/
def device_stop (dev_obj : Option device_obj) (drv_ok : Bool) :
    Except crash_kind (Int × Option device_obj × List dev_event) :=
  match dev_obj with
  | none => .ok (-EINVAL, none, [])
  | some d =>
    match device_stop_locked d drv_ok with
    | .error k => .error k
    | .ok (r, d', evs) => .ok (r, some d', evs)

/-- Body of `device_close` under the lock, device.c lines 430-447.
`--refcnt.open` decrements first; only when the result is 0 does the code
notify sysfs (DISABLE), call `pcm_close`, set `DEV_CLOSED` and zero the
prepare/start refcounts.  The state is set whether or not `pcm_close`
succeeds. -/
def device_close_locked (d : device_obj) (drv_ok : Bool) :
    Except crash_kind (Int × device_obj × List dev_event) :=
  if d.open_cnt - 1 = 0 then
    match d.pcm with
    | none => .error .null_deref
    | some _ =>
      .ok (if drv_ok then 0 else -1,
        { d with open_cnt := 0, state := .DEV_CLOSED, prepare_cnt := 0,
                 start_cnt := 0, pcm := none },
        [.sysfs_write d.pcm_id DEVICE_DISABLE, .pcm_close])
  else
    .ok (0, { d with open_cnt := d.open_cnt - 1 }, [])

/-- `device_close`, device.c lines 421-449. -/
def device_close (dev_obj : Option device_obj) (drv_ok : Bool) :
    Except crash_kind (Int × Option device_obj × List dev_event) :=
  match dev_obj with
  | none => .ok (-EINVAL, none, [])
  | some d =>
    match device_close_locked d drv_ok with
    | .error k => .error k
    | .ok (r, d', evs) => .ok (r, some d', evs)

/-- `device_current_state`, device.c lines 451-454: no null check, the
argument is dereferenced unconditionally. -/
def device_current_state (dev_obj : Option device_obj) :
    Except crash_kind device_state :=
  match dev_obj with
  | none => .error .null_deref
  | some d => .ok d.state

/-- `device_set_media_config`, device.c lines 489-502. -/
def device_set_media_config (dev_obj : Option device_obj)
    (device_media_config : Option agm_media_config) :
    Except crash_kind (Int × Option device_obj) :=
  match dev_obj, device_media_config with
  | none, _ => .ok (-EINVAL, dev_obj)
  | some _, none => .ok (-EINVAL, dev_obj)
  | some d, some c => .ok (0, some { d with media_config := c })

/-- `device_set_metadata`, device.c lines 504-509: no null check;
`metadata_free(&dev_obj->metadata)` dereferences the argument immediately.
The external `metadata_copy` is modelled as storing the blob (its size). -/
def device_set_metadata (dev_obj : Option device_obj) (size : Nat) :
    Except crash_kind (Int × Option device_obj) :=
  match dev_obj with
  | none => .error .null_deref
  | some d => .ok (0, some { d with metadata := some size })

/-- `device_set_params`, device.c lines 511-538: no null check; the first
statement already dereferences `dev_obj` (it even unlocks the lock instead
of locking it, a concurrency bug outside this model).  The old blob is freed
first; if the `calloc` fails the params stay null and `-EINVAL` is
returned. -/
def device_set_params (dev_obj : Option device_obj) (size : Nat) (alloc_ok : Bool) :
    Except crash_kind (Int × Option device_obj) :=
  match dev_obj with
  | none => .error .null_deref
  | some d =>
    if alloc_ok then .ok (0, some { d with params := some size })
    else .ok (-EINVAL, some { d with params := none })

/- ------------------------------------------------------------------ -/
/- Registry and discovery (device.c lines 676-777).                    -/
/- ------------------------------------------------------------------ -/

/-- The two globals of the registry: `num_audio_intfs` and `device_list`
(device.c lines 68-69).  Registry entries are abstracted to identifiers. -/
structure reg_state where
  num_audio_intfs : Nat
  device_list : List Nat
  deriving DecidableEq

/-- `device_get_obj`, device.c lines 477-487.  The bound check is
`device_idx > num_audio_intfs`; `.ok none` models the `device_list[idx]`
read landing past the end of the allocated array. -/
def device_get_obj (device_idx : Nat) (st : reg_state) : Except Int (Option Nat) :=
  if device_idx > st.num_audio_intfs then
    .error (-EINVAL)
  else
    .ok (st.device_list.get? device_idx)

/-- `parse_snd_card`, device.c lines 676-759.  The enumeration source is
`none` when `fopen` fails, otherwise the list of lines, each carrying an
identifier and the outcome of `populate_device_hw_ep_info`.  Faithful
details: the counting loop increments the *global* `num_audio_intfs` once
per line without resetting it first; on the zero-valid-entries path the
code frees the objects and the array (modelled by emptying `device_list`)
but leaves `num_audio_intfs` at the accumulated value; only a successful
attempt stores `count` back into `num_audio_intfs`.  The two `calloc`s are
modelled as succeeding. -/
def parse_snd_card (src : Option (List (Nat × Bool))) (st : reg_state) :
    Int × reg_state :=
  match src with
  | none => (-ENODEV, st)
  | some lines =>
    let n := st.num_audio_intfs + lines.length
    let devs := (lines.filter (fun l => l.2)).map (fun l => l.1)
    if devs.length = 0 then
      (-EAGAIN, { num_audio_intfs := n, device_list := [] })
    else
      (0, { num_audio_intfs := devs.length, device_list := devs })

/-- The retry loop of `device_init`, device.c lines 766-774.  The second
`Nat` argument is the `retries` counter: the do-while body runs, and on
`-EAGAIN` the counter is decremented and the loop continues only while it
is still positive.  `src i` is the enumeration source seen by the i-th
invocation (0-based); the returned `Nat` is the number of invocations of
`parse_snd_card` made. -/
def device_init_go (src : Nat → Option (List (Nat × Bool))) :
    Nat → Nat → reg_state → Int × Nat × reg_state
  | i, 0, st =>
    ((parse_snd_card (src i) st).1, i + 1, (parse_snd_card (src i) st).2)
  | i, r + 1, st =>
    let p := parse_snd_card (src i) st
    if p.1 = -EAGAIN then
      if 0 < r then device_init_go src (i + 1) r p.2
      else (p.1, i + 1, p.2)
    else (p.1, i + 1, p.2)

/-- `device_init`, device.c lines 761-777: `retries` starts at
`MAX_RETRY`. -/
def device_init (src : Nat → Option (List (Nat × Bool))) (st : reg_state) :
    Int × Nat × reg_state :=
  device_init_go src 0 MAX_RETRY st

/-- Source-side predicate: a discovery attempt over this source finds zero
valid endpoints (the file opened, but no line passed the probe). -/
def zero_valid (s : Option (List (Nat × Bool))) : Bool :=
  match s with
  | none => false
  | some lines => ((lines.filter (fun l => l.2)).length = 0 : Bool)

/-- Source-side predicate: a discovery attempt over this source finds
exactly one valid endpoint. -/
def one_valid (s : Option (List (Nat × Bool))) : Bool :=
  match s with
  | none => false
  | some lines => ((lines.filter (fun l => l.2)).length = 1 : Bool)

/- ------------------------------------------------------------------ -/
/- Iterated open/close runs, for the refcount-sharing claims.          -/
/- ------------------------------------------------------------------ -/

/-- `n` consecutive `device_open` calls on one device, all with the same
driver outcome; returns the final device and, per call in order, the return
code and the events the call performed. -/
def device_open_n (d : device_obj) (drv_ok : Bool) :
    Nat → Except crash_kind (device_obj × List (Int × List dev_event))
  | 0 => .ok (d, [])
  | n + 1 =>
    match device_open_locked d drv_ok with
    | .error k => .error k
    | .ok (r, d', evs) =>
      match device_open_n d' drv_ok n with
      | .error k => .error k
      | .ok (dN, results) => .ok (dN, (r, evs) :: results)

/-- `n` consecutive `device_close` calls on one device. -/
def device_close_n (d : device_obj) (drv_ok : Bool) :
    Nat → Except crash_kind (device_obj × List (Int × List dev_event))
  | 0 => .ok (d, [])
  | n + 1 =>
    match device_close_locked d drv_ok with
    | .error k => .error k
    | .ok (r, d', evs) =>
      match device_close_n d' drv_ok n with
      | .error k => .error k
      | .ok (dN, results) => .ok (dN, (r, evs) :: results)

/-- Number of real driver opens in an event list. -/
def count_pcm_open (evs : List dev_event) : Nat :=
  evs.countP (fun e => match e with | .pcm_open _ => true | _ => false)

/- ------------------------------------------------------------------ -/
/- Lifecycle traces, for the invariant claim.                          -/
/- ------------------------------------------------------------------ -/

/-- One lifecycle call, with the driver oracle for the calls that may reach
the driver. -/
inductive life_op where
  | op_open (drv_ok : Bool)
  | op_prepare (drv_ok : Bool)
  | op_start
  | op_stop (drv_ok : Bool)
  | op_close (drv_ok : Bool)
  deriving DecidableEq

/-- Dispatch one lifecycle call on a (non-null) device. -/
def life_step (d : device_obj) : life_op →
    Except crash_kind (Int × device_obj × List dev_event)
  | .op_open b => device_open_locked d b
  | .op_prepare b => device_prepare_locked d b
  | .op_start => device_start_locked d
  | .op_stop b => device_stop_locked d b
  | .op_close b => device_close_locked d b

/-- Run a sequence of lifecycle calls; `.error` if some call crashes. -/
def life_run (d : device_obj) : List life_op → Except crash_kind device_obj
  | [] => .ok d
  | op :: tr =>
    match life_step d op with
    | .error k => .error k
    | .ok (_, d', _) => life_run d' tr

def is_open_op : life_op → Bool
  | .op_open _ => true
  | _ => false

def is_close_op : life_op → Bool
  | .op_close _ => true
  | _ => false

/-- `closes_le_opens_go o c tr`: walking `tr` with `o` opens and `c` closes
already seen, the running number of close calls never exceeds the running
number of open calls. -/
def closes_le_opens_go : Nat → Nat → List life_op → Bool
  | _, _, [] => true
  | o, c, op :: tr =>
    let o' := if is_open_op op then o + 1 else o
    let c' := if is_close_op op then c + 1 else c
    decide (c' ≤ o') && closes_le_opens_go o' c' tr

/-- In every prefix of the trace, `device_close` is invoked at most as many
times as `device_open`. -/
def closes_le_opens (tr : List life_op) : Bool :=
  closes_le_opens_go 0 0 tr

/-- The invariant claimed in spec section 3 for the three refcounts. -/
def claim_inv (d : device_obj) : Prop :=
  (0 < d.prepare_cnt → 0 < d.open_cnt) ∧
  (0 < d.start_cnt → d.state = .DEV_STARTED) ∧
  (d.open_cnt = 0 → d.prepare_cnt = 0 ∧ d.start_cnt = 0)

instance (d : device_obj) : Decidable (claim_inv d) := by
  unfold claim_inv; infer_instance

/-- Strengthening of `claim_inv` that is inductive for `life_step`. -/
def life_inv (d : device_obj) : Prop :=
  0 ≤ d.prepare_cnt ∧
  0 ≤ d.start_cnt ∧
  (0 < d.prepare_cnt → 0 < d.open_cnt) ∧
  (0 < d.start_cnt → d.state = .DEV_STARTED) ∧
  (2 ≤ d.state.toNat → 0 < d.prepare_cnt) ∧
  (d.open_cnt ≤ 0 → d.state = .DEV_CLOSED) ∧
  (d.pcm.isSome → 0 < d.open_cnt) ∧
  (0 < d.start_cnt → 0 < d.open_cnt)

/- ------------------------------------------------------------------ -/
/- Spec-side tables for the format round-trip claim.                   -/
/- ------------------------------------------------------------------ -/

/-- Spec section 8: bytes per sample of each supported format
(1, 2, 3, 4, 4 for 8-bit, 16-bit, 24-in-3, 24-in-4, 32-bit), with unknown
formats treated as 16-bit. -/
def spec_bytes_per_sample : agm_media_format → Nat
  | .AGM_FORMAT_PCM_S8 => 1
  | .AGM_FORMAT_PCM_S16_LE => 2
  | .AGM_FORMAT_PCM_S24_3LE => 3
  | .AGM_FORMAT_PCM_S24_LE => 4
  | .AGM_FORMAT_PCM_S32_LE => 4
  | .AGM_FORMAT_INVALID => 2

/-- Spec section 4.3: the driver format each abstract format must map to,
with unknown formats treated as 16-bit signed little-endian. -/
def spec_driver_format : agm_media_format → pcm_format
  | .AGM_FORMAT_PCM_S8 => .PCM_FORMAT_S8
  | .AGM_FORMAT_PCM_S16_LE => .PCM_FORMAT_S16_LE
  | .AGM_FORMAT_PCM_S24_3LE => .PCM_FORMAT_S24_3LE
  | .AGM_FORMAT_PCM_S24_LE => .PCM_FORMAT_S24_LE
  | .AGM_FORMAT_PCM_S32_LE => .PCM_FORMAT_S32_LE
  | .AGM_FORMAT_INVALID => .PCM_FORMAT_S16_LE

/-- The `pcm_config` a lifecycle call handed to `pcm_open`, if it made a
driver open call. -/
def open_driver_request
    (r : Except crash_kind (Int × device_obj × List dev_event)) :
    Option pcm_config :=
  match r with
  | .error _ => none
  | .ok (_, _, evs) =>
    evs.findSome? (fun e => match e with | .pcm_open c => some c | _ => none)

/- ------------------------------------------------------------------ -/
/- Theorems.                                                           -/
/- ------------------------------------------------------------------ -/

/-- Claim C4: `device_get_obj` is claimed to reject every index that is not
a discovered device.  The actual check is `device_idx > num_audio_intfs`, so
the index equal to the entry count passes the check and the element one past
the end of the `device_list` array is read: on a registry holding exactly one
device, index 1 returns status 0 after an out-of-bounds read (`.ok none`)
instead of `-EINVAL`. -/
theorem get_obj_off_by_one :
    device_get_obj 1 { num_audio_intfs := 1, device_list := [7] } = .ok none := by
  rfl

/-- Claim C5: a discovery attempt over a source with a single line whose
endpoint probe fails returns the retryable error, but leaves the global
entry count at the accumulated line count (1) instead of restoring the
pre-attempt value (0): the freed objects and array are released, yet partial
state does survive into the next attempt. -/
theorem discovery_retains_count :
    parse_snd_card (some [(7, false)]) { num_audio_intfs := 0, device_list := [] } =
      (-EAGAIN, { num_audio_intfs := 1, device_list := [] }) := by
  decide

/-- Claim C6, counterexample: `device_set_metadata`, `device_set_params` and
`device_current_state` perform no null check at all; called with a null
Device Object they dereference it instead of returning `-EINVAL`. -/
theorem null_object_dereferenced :
    device_set_metadata none 4 = .error .null_deref ∧
    device_set_params none 4 true = .error .null_deref ∧
    device_current_state none = .error .null_deref := by
  exact ⟨rfl, rfl, rfl⟩

/-- Claim C6, amended: the null check holds for `device_set_media_config`,
`device_open`, `device_prepare`, `device_start`, `device_stop` and
`device_close` (immediate `-EINVAL`, no state change, no driver call), but
`device_set_metadata`, `device_set_params` and `device_current_state`
dereference the null object without any check. -/
theorem null_check_coverage :
    ∀ (b alloc : Bool) (sz : Nat) (cfg : agm_media_config),
    device_open none b = .ok (-EINVAL, none, []) ∧
    device_prepare none b = .ok (-EINVAL, none, []) ∧
    device_start none = .ok (-EINVAL, none, []) ∧
    device_stop none b = .ok (-EINVAL, none, []) ∧
    device_close none b = .ok (-EINVAL, none, []) ∧
    device_set_media_config none (some cfg) = .ok (-EINVAL, none) ∧
    device_set_metadata none sz = .error .null_deref ∧
    device_set_params none sz alloc = .error .null_deref ∧
    device_current_state none = .error .null_deref := by
  intro b alloc sz cfg
  exact ⟨rfl, rfl, rfl, rfl, rfl, rfl, rfl, rfl, rfl⟩

/-- Claim C9: `device_start` on a device whose state is below `DEV_PREPARED`
returns the ordering-violation error `-1`, makes no driver call and leaves
the device (state and all three refcounts) unchanged; and `device_stop` on a
device with `start_cnt = 0` returns success `0`, makes no driver call and
leaves the device unchanged. -/
theorem start_stop_ordering :
    (∀ d : device_obj, d.state.toNat < device_state.DEV_PREPARED.toNat →
      device_start_locked d = .ok (-1, d, [])) ∧
    (∀ (d : device_obj) (drv_ok : Bool), d.start_cnt = 0 →
      device_stop_locked d drv_ok = .ok (0, d, [])) := by
  constructor
  · intro d h
    unfold device_start_locked
    rw [if_pos h]
  · intro d drv_ok h
    unfold device_stop_locked
    rw [if_pos h]

/-- Witness for `start_stop_ordering` at concrete devices: a freshly
discovered device is below `DEV_PREPARED` and has `start_cnt = 0`. -/
theorem start_stop_ordering_witness :
    device_start_locked (init_device_obj 0 0 zero_media_config) =
      .ok (-1, init_device_obj 0 0 zero_media_config, []) ∧
    device_stop_locked (init_device_obj 0 0 zero_media_config) true =
      .ok (0, init_device_obj 0 0 zero_media_config, []) := by
  exact ⟨start_stop_ordering.1 (init_device_obj 0 0 zero_media_config) (by decide),
         start_stop_ordering.2 (init_device_obj 0 0 zero_media_config) true (by decide)⟩

/-- Claim C10: when `open_cnt = 0`, `device_open` divides the 8192-byte
budget by `channels * (bits_per_sample/8)` with no validity check on the
media config; on a device whose channel count is 0 (in particular one whose
media config was never set after `calloc`) the period-size computation
divides by zero. -/
theorem open_div_by_zero :
    ∀ (d : device_obj) (drv_ok : Bool),
    d.open_cnt = 0 → d.media_config.channels = 0 →
    device_open_locked d drv_ok = .error .div_by_zero := by
  intro d drv_ok h0 hch
  unfold device_open_locked
  rw [if_neg (by simp [h0]), if_pos (by simp [hch])]

/-- Witness for `open_div_by_zero`: the device exactly as discovery creates
it, before any `device_set_media_config`. -/
theorem open_div_by_zero_witness :
    device_open_locked (init_device_obj 0 0 zero_media_config) true =
      .error .div_by_zero := by
  exact open_div_by_zero (init_device_obj 0 0 zero_media_config) true rfl rfl

/-- Claim C8: for every media format and channel count > 0, the first
`device_open` hands the driver the translated format (unknown formats map to
16-bit signed little-endian) and a period size of
`8192 / (channels * bytes_per_sample(format))`, with bytes per sample
1, 2, 3, 4, 4 for the 8/16/24-in-3/24-in-4/32-bit formats. -/
theorem media_open_translation :
    ∀ (fmt : agm_media_format) (ch rate card pid : Nat), 0 < ch →
    Option.map pcm_config.format
        (open_driver_request (device_open_locked
          (init_device_obj card pid
            { rate := rate, channels := ch, format := fmt, data_format := 0 }) true)) =
      some (spec_driver_format fmt) ∧
    Option.map pcm_config.period_size
        (open_driver_request (device_open_locked
          (init_device_obj card pid
            { rate := rate, channels := ch, format := fmt, data_format := 0 }) true)) =
      some (MAX_PERIOD_BUFFER / (ch * spec_bytes_per_sample fmt)) := by
  intro fmt ch rate card pid hch
  have hne : ch ≠ 0 := hch.ne'
  cases fmt <;>
    simp [device_open_locked, open_request_of, init_device_obj, open_driver_request,
      get_pcm_bits_per_sample, agm_to_pcm_format, spec_driver_format,
      spec_bytes_per_sample, MAX_PERIOD_BUFFER, List.findSome?_cons, hne]

/-- Witness for `media_open_translation`: the 24-bit-in-3-bytes format with
two channels, whose driver request carries `PCM_FORMAT_S24_3LE` and period
size `8192 / (2 * 3)`. -/
theorem media_open_translation_witness :
    Option.map pcm_config.format
        (open_driver_request (device_open_locked
          (init_device_obj 0 0
            { rate := 48000, channels := 2,
              format := .AGM_FORMAT_PCM_S24_3LE, data_format := 0 }) true)) =
      some (spec_driver_format .AGM_FORMAT_PCM_S24_3LE) ∧
    Option.map pcm_config.period_size
        (open_driver_request (device_open_locked
          (init_device_obj 0 0
            { rate := 48000, channels := 2,
              format := .AGM_FORMAT_PCM_S24_3LE, data_format := 0 }) true)) =
      some (MAX_PERIOD_BUFFER / (2 * spec_bytes_per_sample .AGM_FORMAT_PCM_S24_3LE)) :=
  media_open_translation .AGM_FORMAT_PCM_S24_3LE 2 48000 0 0 (by decide)

/-- Unfolding equation: one step of `device_open_n`. -/
theorem device_open_n_succ (d : device_obj) (drv_ok : Bool) (n : Nat) :
    device_open_n d drv_ok (n + 1) =
      match device_open_locked d drv_ok with
      | .error k => .error k
      | .ok (r, d', evs) =>
        match device_open_n d' drv_ok n with
        | .error k => .error k
        | .ok (dN, results) => .ok (dN, (r, evs) :: results) := rfl

/-- `device_open` on an already-open device: only the refcount moves. -/
theorem open_locked_shared (d : device_obj) (drv_ok : Bool) (h : d.open_cnt ≠ 0) :
    device_open_locked d drv_ok = .ok (0, { d with open_cnt := d.open_cnt + 1 }, []) := by
  unfold device_open_locked
  rw [if_pos h]

/-- `device_open` on a closed device with a well-formed config and a
successful driver open. -/
theorem open_locked_real (d : device_obj) (h0 : d.open_cnt = 0)
    (hz : d.media_config.channels * (get_pcm_bits_per_sample d.media_config.format / 8) ≠ 0) :
    device_open_locked d true =
      .ok (0, { d with pcm := some (), state := .DEV_OPENED, open_cnt := d.open_cnt + 1 },
        [.pcm_open (open_request_of d), .sysfs_write d.pcm_id DEVICE_ENABLE]) := by
  unfold device_open_locked
  rw [if_neg (by simp [h0]), if_neg hz, if_pos rfl]

/-- `device_open` on a closed device when the driver open fails: `-EIO`,
nothing recorded on the object. -/
theorem open_locked_real_fail (d : device_obj) (h0 : d.open_cnt = 0)
    (hz : d.media_config.channels * (get_pcm_bits_per_sample d.media_config.format / 8) ≠ 0) :
    device_open_locked d false = .ok (-EIO_ERR, d, [.pcm_open (open_request_of d)]) := by
  unfold device_open_locked
  rw [if_neg (by simp [h0]), if_neg hz, if_neg (by simp)]

/-- On a device that is already open, every `device_open` call just
increments the refcount, returns 0 and performs no driver call or
notification. -/
theorem device_open_n_shared (n : Nat) :
    ∀ (d : device_obj) (drv_ok : Bool), 0 < d.open_cnt →
    ∃ dN, device_open_n d drv_ok n = .ok (dN, List.replicate n (0, [])) ∧
      dN.open_cnt = d.open_cnt + n := by
  induction n with
  | zero =>
    intro d drv_ok hpos
    exact ⟨d, rfl, by simp⟩
  | succ n ih =>
    intro d drv_ok hpos
    obtain ⟨dN, hrun, hcnt⟩ :=
      ih { d with open_cnt := d.open_cnt + 1 } drv_ok (by simp; omega)
    refine ⟨dN, ?_, ?_⟩
    · rw [device_open_n_succ, open_locked_shared d drv_ok (ne_of_gt hpos)]
      simp [hrun, List.replicate_succ]
    · rw [hcnt]
      simp
      omega

/-- Claim C1: starting from `open_cnt = 0`, in any run of `N ≥ 1`
`device_open` calls that all return success, the real driver open happens
exactly once in total, every call after the first performs no driver action
or notification at all (it only increments the refcount), and the final
`open_cnt` is `N`. -/
theorem open_shared_refcount :
    ∀ (N : Nat) (d : device_obj) (drv_ok : Bool) (dN : device_obj)
      (results : List (Int × List dev_event)),
    1 ≤ N → d.open_cnt = 0 →
    device_open_n d drv_ok N = .ok (dN, results) →
    (∀ p ∈ results, p.1 = 0) →
    dN.open_cnt = (N : Int) ∧
    (results.map (fun p => count_pcm_open p.2)).sum = 1 ∧
    results.length = N ∧
    (∀ i, ∀ h : i < results.length, 1 ≤ i → (results.get ⟨i, h⟩).2 = []) := by
  intro N d drv_ok dN results hN h0 hrun hall
  obtain ⟨n, rfl⟩ : ∃ n, N = n + 1 := ⟨N - 1, by omega⟩
  by_cases hz :
      d.media_config.channels * (get_pcm_bits_per_sample d.media_config.format / 8) = 0
  · rw [device_open_n_succ] at hrun
    unfold device_open_locked at hrun
    rw [if_neg (by simp [h0]), if_pos hz] at hrun
    cases hrun
  · cases drv_ok
    · exfalso
      rw [device_open_n_succ, open_locked_real_fail d h0 hz] at hrun
      dsimp only at hrun
      cases hrec : device_open_n d false n with
      | error k => rw [hrec] at hrun; cases hrun
      | ok p =>
        obtain ⟨dN', res'⟩ := p
        rw [hrec] at hrun
        simp only [Except.ok.injEq, Prod.mk.injEq] at hrun
        obtain ⟨-, hres⟩ := hrun
        have h5 := hall (-EIO_ERR, [.pcm_open (open_request_of d)])
          (by rw [← hres]; exact List.mem_cons_self _ _)
        simp [EIO_ERR] at h5
    · rw [device_open_n_succ, open_locked_real d h0 hz] at hrun
      dsimp only at hrun
      obtain ⟨dN0, hrec, hcnt⟩ :=
        device_open_n_shared n
          { d with pcm := some (), state := .DEV_OPENED, open_cnt := d.open_cnt + 1 }
          true (by simp [h0])
      rw [hrec] at hrun
      simp only [Except.ok.injEq, Prod.mk.injEq] at hrun
      obtain ⟨hdN, hres⟩ := hrun
      subst hdN
      subst hres
      refine ⟨?_, ?_, ?_, ?_⟩
      · rw [hcnt]
        simp [h0]
        omega
      · simp [count_pcm_open, List.map_replicate, List.sum_replicate]
      · simp
      · intro i h hi
        match i, hi with
        | Nat.succ j, _ =>
          simp only [List.get_cons_succ]
          have hj : j < n := by simpa using h
          simp [List.get_eq_getElem, List.getElem_replicate]

/-- A concrete media config used by the concrete instantiations below. -/
def sample_cfg : agm_media_config :=
  { rate := 48000, channels := 2, format := .AGM_FORMAT_PCM_S16_LE, data_format := 0 }

/-- The device after three successful opens of a fresh device carrying
`sample_cfg`. -/
def sample_open_dev : device_obj :=
  { init_device_obj 0 0 sample_cfg with pcm := some (), state := .DEV_OPENED, open_cnt := 3 }

/-- Per-call results of those three opens. -/
def sample_open_results : List (Int × List dev_event) :=
  [(0, [.pcm_open (open_request_of (init_device_obj 0 0 sample_cfg)),
        .sysfs_write 0 DEVICE_ENABLE]),
   (0, []), (0, [])]

/-- Witness for `open_shared_refcount`: three successful opens of a fresh
16-bit stereo device. -/
theorem open_shared_refcount_witness :
    sample_open_dev.open_cnt = ((3 : Nat) : Int) ∧
    (sample_open_results.map (fun p => count_pcm_open p.2)).sum = 1 ∧
    sample_open_results.length = 3 ∧
    (∀ i, ∀ h : i < sample_open_results.length, 1 ≤ i →
      (sample_open_results.get ⟨i, h⟩).2 = []) :=
  open_shared_refcount 3 (init_device_obj 0 0 sample_cfg) true sample_open_dev
    sample_open_results (by decide) (by decide) rfl (by decide)

/-- Unfolding equation: one step of `device_close_n`. -/
theorem device_close_n_succ (d : device_obj) (drv_ok : Bool) (n : Nat) :
    device_close_n d drv_ok (n + 1) =
      match device_close_locked d drv_ok with
      | .error k => .error k
      | .ok (r, d', evs) =>
        match device_close_n d' drv_ok n with
        | .error k => .error k
        | .ok (dN, results) => .ok (dN, (r, evs) :: results) := rfl

/-- `device_close` when other openers remain: only the refcount moves. -/
theorem close_locked_shared (d : device_obj) (drv_ok : Bool)
    (h : d.open_cnt - 1 ≠ 0) :
    device_close_locked d drv_ok = .ok (0, { d with open_cnt := d.open_cnt - 1 }, []) := by
  unfold device_close_locked
  rw [if_neg h]

/-- `device_close` by the last opener: sysfs disable notification, real
driver close, state reset. -/
theorem close_locked_last (d : device_obj) (drv_ok : Bool)
    (h : d.open_cnt - 1 = 0) (hp : d.pcm = some ()) :
    device_close_locked d drv_ok =
      .ok (if drv_ok then 0 else -1,
        { d with open_cnt := 0, state := .DEV_CLOSED, prepare_cnt := 0,
                 start_cnt := 0, pcm := none },
        [.sysfs_write d.pcm_id DEVICE_DISABLE, .pcm_close]) := by
  unfold device_close_locked
  rw [if_pos h, hp]

/-- Exact run of `k` `device_close` calls on a device opened `k` times:
the first `k - 1` calls only decrement, the `k`-th performs the sysfs
disable notification and the one real driver close and resets the object. -/
theorem device_close_n_run (k : Nat) :
    ∀ (d : device_obj) (drv_ok : Bool),
    d.open_cnt = (k : Int) → d.pcm = some () → 1 ≤ k →
    device_close_n d drv_ok k =
      .ok ({ d with open_cnt := 0, state := .DEV_CLOSED, prepare_cnt := 0,
                    start_cnt := 0, pcm := none },
        List.replicate (k - 1) ((0 : Int), ([] : List dev_event)) ++
          [(if drv_ok then 0 else -1,
            [.sysfs_write d.pcm_id DEVICE_DISABLE, .pcm_close])]) := by
  induction k with
  | zero =>
    intro d drv_ok h hp hk
    exact absurd hk (by decide)
  | succ m ih =>
    intro d drv_ok h hp hk
    by_cases hm : m = 0
    · subst hm
      rw [device_close_n_succ, close_locked_last d drv_ok (by rw [h]; rfl) hp]
      rfl
    · obtain ⟨j, rfl⟩ : ∃ j, m = j + 1 := ⟨m - 1, by omega⟩
      have hne : d.open_cnt - 1 ≠ 0 := by rw [h]; push_cast; omega
      rw [device_close_n_succ, close_locked_shared d drv_ok hne]
      dsimp only
      rw [ih { d with open_cnt := d.open_cnt - 1 } drv_ok
        (by simp [h]) (by simp [hp]) (by omega)]
      dsimp only
      rw [show (j + 1 + 1 - 1) = (j + 1 - 1) + 1 from by omega]
      simp [List.replicate_succ]

/-- Number of real driver closes in an event list. -/
def count_pcm_close (evs : List dev_event) : Nat :=
  evs.countP (fun e => match e with | .pcm_close => true | _ => false)

/-- Number of sink "disabled" notifications in an event list. -/
def count_sysfs_disable (evs : List dev_event) : Nat :=
  evs.countP (fun e => match e with
    | .sysfs_write _ s => s == DEVICE_DISABLE
    | _ => false)

/-- Claim C2: on a device opened `k ≥ 1` times, running `device_close`
exactly `k` times performs exactly one real driver close and exactly one
sink "disabled" notification (both on the `k`-th call; every earlier call
performs nothing), and afterwards `state = DEV_CLOSED`,
`prepare_cnt = 0` and `start_cnt = 0`. -/
theorem close_last_releaser :
    ∀ (k : Nat) (d : device_obj) (drv_ok : Bool) (dK : device_obj)
      (results : List (Int × List dev_event)),
    1 ≤ k → d.open_cnt = (k : Int) → d.pcm = some () →
    device_close_n d drv_ok k = .ok (dK, results) →
    dK.state = .DEV_CLOSED ∧ dK.prepare_cnt = 0 ∧ dK.start_cnt = 0 ∧
    dK.open_cnt = 0 ∧
    (results.map (fun p => count_pcm_close p.2)).sum = 1 ∧
    (results.map (fun p => count_sysfs_disable p.2)).sum = 1 ∧
    results.length = k ∧
    (∀ i, ∀ h : i < results.length, i + 1 < k → (results.get ⟨i, h⟩).2 = []) := by
  intro k d drv_ok dK results hk h hp hrun
  rw [device_close_n_run k d drv_ok h hp hk] at hrun
  simp only [Except.ok.injEq, Prod.mk.injEq] at hrun
  obtain ⟨hdK, hres⟩ := hrun
  subst hdK
  subst hres
  refine ⟨rfl, rfl, rfl, rfl, ?_, ?_, ?_, ?_⟩
  · simp [count_pcm_close, List.map_replicate, List.sum_replicate]
  · simp [count_sysfs_disable, List.map_replicate, List.sum_replicate]
  · simp
    omega
  · intro i hlt hik
    have hi : i < k - 1 := by omega
    have hrep : i < (List.replicate (k - 1) ((0 : Int), ([] : List dev_event))).length := by
      simpa using hi
    simp [List.get_eq_getElem, List.getElem_append_left hrep, List.getElem_replicate]

/-- A device opened twice (as after two successful `device_open` calls of a
fresh 16-bit stereo device). -/
def sample_open2_dev : device_obj :=
  { init_device_obj 0 0 sample_cfg with pcm := some (), state := .DEV_OPENED, open_cnt := 2 }

/-- Per-call results of closing `sample_open2_dev` twice. -/
def sample_close_results : List (Int × List dev_event) :=
  [(0, []), (0, [.sysfs_write 0 DEVICE_DISABLE, .pcm_close])]

/-- Witness for `close_last_releaser`: closing a twice-opened device twice. -/
theorem close_last_releaser_witness :
    (init_device_obj 0 0 sample_cfg).state = .DEV_CLOSED ∧
    (init_device_obj 0 0 sample_cfg).prepare_cnt = 0 ∧
    (init_device_obj 0 0 sample_cfg).start_cnt = 0 ∧
    (init_device_obj 0 0 sample_cfg).open_cnt = 0 ∧
    (sample_close_results.map (fun p => count_pcm_close p.2)).sum = 1 ∧
    (sample_close_results.map (fun p => count_sysfs_disable p.2)).sum = 1 ∧
    sample_close_results.length = 2 ∧
    (∀ i, ∀ h : i < sample_close_results.length, i + 1 < 2 →
      (sample_close_results.get ⟨i, h⟩).2 = []) :=
  close_last_releaser 2 sample_open2_dev true (init_device_obj 0 0 sample_cfg)
    sample_close_results (by decide) (by decide) rfl rfl

/-- A discovery attempt over a source with zero valid endpoints returns the
retryable error. -/
theorem parse_snd_card_zero (s : Option (List (Nat × Bool))) (st : reg_state)
    (h : zero_valid s = true) : (parse_snd_card s st).1 = -EAGAIN := by
  cases s with
  | none => simp [zero_valid] at h
  | some lines =>
    simp only [zero_valid, decide_eq_true_eq] at h
    simp [parse_snd_card, h]

/-- A discovery attempt over a source with exactly one valid endpoint
succeeds and stores entry count 1. -/
theorem parse_snd_card_one (s : Option (List (Nat × Bool))) (st : reg_state)
    (h : one_valid s = true) :
    (parse_snd_card s st).1 = 0 ∧ (parse_snd_card s st).2.num_audio_intfs = 1 := by
  cases s with
  | none => simp [one_valid] at h
  | some lines =>
    simp only [one_valid, decide_eq_true_eq] at h
    simp [parse_snd_card, h]

/-- If the first attempt of a retry round does not return `-EAGAIN`, the
loop stops immediately after it. -/
theorem device_init_go_first (src : Nat → Option (List (Nat × Bool)))
    (i r : Nat) (st : reg_state)
    (h : (parse_snd_card (src i) st).1 ≠ -EAGAIN) :
    device_init_go src i (r + 1) st =
      ((parse_snd_card (src i) st).1, i + 1, (parse_snd_card (src i) st).2) := by
  simp only [device_init_go]
  rw [if_neg h]

/-- When every attempt finds zero valid endpoints, a retry round with
budget `r ≥ 1` makes exactly `r` invocations and ends with `-EAGAIN`. -/
theorem device_init_go_all_eagain (src : Nat → Option (List (Nat × Bool))) :
    ∀ (r : Nat), ∀ (i : Nat) (st : reg_state), 1 ≤ r →
    (∀ j, zero_valid (src j) = true) →
    (device_init_go src i r st).1 = -EAGAIN ∧
    (device_init_go src i r st).2.1 = i + r := by
  intro r
  induction r with
  | zero => intro i st hr _; exact absurd hr (by decide)
  | succ m ih =>
    intro i st _ hall
    have hp : (parse_snd_card (src i) st).1 = -EAGAIN :=
      parse_snd_card_zero (src i) st (hall i)
    by_cases hm : m = 0
    · subst hm
      simp only [device_init_go]
      rw [if_pos hp]
      simp [hp]
    · simp only [device_init_go]
      rw [if_pos hp, if_pos (by omega)]
      obtain ⟨h1, h2⟩ := ih (i + 1) (parse_snd_card (src i) st).2 (by omega) hall
      exact ⟨h1, by rw [h2]; omega⟩

/-- When the first `k` attempts of a round find zero valid endpoints and
the `k`-th (0-based) finds one, the round returns success after `k + 1`
invocations with entry count 1 — provided the budget is not exhausted. -/
theorem device_init_go_success (src : Nat → Option (List (Nat × Bool))) :
    ∀ (k : Nat), ∀ (r i : Nat) (st : reg_state), k < r →
    (∀ j, j < k → zero_valid (src (i + j)) = true) →
    one_valid (src (i + k)) = true →
    (device_init_go src i r st).1 = 0 ∧
    (device_init_go src i r st).2.1 = i + k + 1 ∧
    (device_init_go src i r st).2.2.num_audio_intfs = 1 := by
  intro k
  induction k with
  | zero =>
    intro r i st hr hzero hone
    obtain ⟨m, rfl⟩ : ∃ m, r = m + 1 := ⟨r - 1, by omega⟩
    rw [Nat.add_zero] at hone
    obtain ⟨hp1, hp2⟩ := parse_snd_card_one (src i) st hone
    rw [device_init_go_first src i m st (by rw [hp1]; decide)]
    exact ⟨hp1, rfl, hp2⟩
  | succ j ih =>
    intro r i st hr hzero hone
    obtain ⟨m, rfl⟩ : ∃ m, r = m + 1 := ⟨r - 1, by omega⟩
    have hp : (parse_snd_card (src i) st).1 = -EAGAIN :=
      parse_snd_card_zero (src i) st (by simpa using hzero 0 (by omega))
    simp only [device_init_go]
    rw [if_pos hp, if_pos (by omega)]
    have hshift : ∀ j', j' < j → zero_valid (src (i + 1 + j')) = true := by
      intro j' hj'
      have := hzero (j' + 1) (by omega)
      simpa [Nat.add_assoc, Nat.add_comm 1 j'] using this
    have hone' : one_valid (src (i + 1 + j)) = true := by
      simpa [Nat.add_assoc, Nat.add_comm 1 j] using hone
    obtain ⟨h1, h2, h3⟩ := ih m (i + 1) (parse_snd_card (src i) st).2 (by omega) hshift hone'
    exact ⟨h1, by rw [h2]; omega, h3⟩

/-- Claim C7, counterexample: with a source in which every attempt finds
zero valid endpoints, `device_init` invokes discovery `MAX_RETRY` (100)
times in total — the first attempt plus 99 re-invocations — not
`1 + MAX_RETRY` times as "re-invokes discovery exactly the configured
retry budget of times" would require. -/
theorem init_retry_counterexample :
    (device_init (fun _ => some [(7, false)])
      { num_audio_intfs := 0, device_list := [] }).2.1 = MAX_RETRY ∧
    (device_init (fun _ => some [(7, false)])
      { num_audio_intfs := 0, device_list := [] }).2.1 ≠ 1 + MAX_RETRY := by
  constructor
  · decide
  · decide

/-- Claim C7, amended: when every attempt finds zero valid endpoints,
`device_init` invokes discovery `MAX_RETRY` (100) times in total (the first
attempt plus `MAX_RETRY - 1` re-invocations) and then returns the retryable
error; when attempt `k` (0-based, within the budget) finds one valid
endpoint, it returns success after `k + 1` invocations with entry count 1;
when the enumeration source cannot be opened, the fatal error is returned
immediately after a single invocation, with no retry. -/
theorem init_retry_semantics :
    (∀ (src : Nat → Option (List (Nat × Bool))) (st : reg_state),
      (∀ j, zero_valid (src j) = true) →
      (device_init src st).1 = -EAGAIN ∧ (device_init src st).2.1 = MAX_RETRY) ∧
    (∀ (src : Nat → Option (List (Nat × Bool))) (st : reg_state) (k : Nat),
      k < MAX_RETRY →
      (∀ j, j < k → zero_valid (src j) = true) → one_valid (src k) = true →
      (device_init src st).1 = 0 ∧ (device_init src st).2.1 = k + 1 ∧
      (device_init src st).2.2.num_audio_intfs = 1) ∧
    (∀ (src : Nat → Option (List (Nat × Bool))) (st : reg_state),
      src 0 = none → device_init src st = (-ENODEV, 1, st)) := by
  refine ⟨?_, ?_, ?_⟩
  · intro src st hall
    obtain ⟨h1, h2⟩ :=
      device_init_go_all_eagain src MAX_RETRY 0 st (by decide) hall
    exact ⟨h1, by rw [device_init] at *; omega⟩
  · intro src st k hk hzero hone
    obtain ⟨h1, h2, h3⟩ :=
      device_init_go_success src k MAX_RETRY 0 st hk (by simpa using hzero)
        (by simpa using hone)
    exact ⟨h1, by rw [device_init] at *; omega, h3⟩
  · intro src st h0
    have hp : parse_snd_card (src 0) st = (-ENODEV, st) := by
      rw [h0]; rfl
    rw [device_init, show MAX_RETRY = 99 + 1 from rfl,
      device_init_go_first src 0 99 st (by rw [hp]; norm_num [ENODEV, EAGAIN]), hp]

/-- Witness for `init_retry_semantics`, instantiating all three parts: a
source that never yields a valid endpoint, a source whose second attempt
yields one, and a source that cannot be opened. -/
theorem init_retry_semantics_witness :
    ((device_init (fun _ => some [(7, false)])
        { num_audio_intfs := 0, device_list := [] }).1 = -EAGAIN ∧
      (device_init (fun _ => some [(7, false)])
        { num_audio_intfs := 0, device_list := [] }).2.1 = MAX_RETRY) ∧
    ((device_init (fun i => if i = 0 then some [(7, false)] else some [(3, true)])
        { num_audio_intfs := 0, device_list := [] }).1 = 0 ∧
      (device_init (fun i => if i = 0 then some [(7, false)] else some [(3, true)])
        { num_audio_intfs := 0, device_list := [] }).2.1 = 1 + 1 ∧
      (device_init (fun i => if i = 0 then some [(7, false)] else some [(3, true)])
        { num_audio_intfs := 0, device_list := [] }).2.2.num_audio_intfs = 1) ∧
    device_init (fun _ => none) { num_audio_intfs := 0, device_list := [] } =
      (-ENODEV, 1, { num_audio_intfs := 0, device_list := [] }) := by
  refine ⟨?_, ?_, ?_⟩
  · exact init_retry_semantics.1 (fun _ => some [(7, false)])
      { num_audio_intfs := 0, device_list := [] } (fun j => rfl)
  · exact init_retry_semantics.2.1
      (fun i => if i = 0 then some [(7, false)] else some [(3, true)])
      { num_audio_intfs := 0, device_list := [] } 1 (by decide)
      (by decide) (by decide)
  · exact init_retry_semantics.2.2 (fun _ => none)
      { num_audio_intfs := 0, device_list := [] } rfl

/-- `device_open` preserves the lifecycle invariant. -/
theorem life_inv_open (d d' : device_obj) (b : Bool) (r : Int)
    (evs : List dev_event) (hS : life_inv d)
    (h : device_open_locked d b = .ok (r, d', evs)) : life_inv d' := by
  unfold life_inv at hS
  obtain ⟨hq0, hq1, hq2, hq3, hq4, hq5, hq6, hq7⟩ := hS
  unfold device_open_locked at h
  unfold life_inv
  by_cases h1 : d.open_cnt = 0
  · rw [if_neg (by simp [h1])] at h
    by_cases h2 :
        d.media_config.channels * (get_pcm_bits_per_sample d.media_config.format / 8) = 0
    · rw [if_pos h2] at h
      cases h
    · rw [if_neg h2] at h
      cases b
      · rw [if_neg (by simp)] at h
        simp only [Except.ok.injEq, Prod.mk.injEq] at h
        obtain ⟨-, hd, -⟩ := h
        subst hd
        try dsimp only
        exact ⟨hq0, hq1, hq2, hq3, hq4, hq5, hq6, hq7⟩
      · rw [if_pos rfl] at h
        simp only [Except.ok.injEq, Prod.mk.injEq] at h
        obtain ⟨-, hd, -⟩ := h
        subst hd
        try dsimp only
        refine ⟨hq0, hq1, ?_, ?_, ?_, ?_, ?_, ?_⟩
        · intro _; omega
        · intro hx; exact absurd (hq7 hx) (by omega)
        · intro hx; exact absurd hx (by decide)
        · intro hx; exact absurd hx (by omega)
        · intro _; omega
        · intro hx; exact absurd (hq7 hx) (by omega)
  · rw [if_pos h1] at h
    simp only [Except.ok.injEq, Prod.mk.injEq] at h
    obtain ⟨-, hd, -⟩ := h
    subst hd
    try dsimp only
    refine ⟨hq0, hq1, ?_, hq3, hq4, ?_, ?_, ?_⟩
    · intro hx; have := hq2 hx; omega
    · intro hx; exact hq5 (by omega)
    · intro hx; have := hq6 hx; omega
    · intro hx; have := hq7 hx; omega

/-- `device_prepare` preserves the lifecycle invariant. -/
theorem life_inv_prepare (d d' : device_obj) (b : Bool) (r : Int)
    (evs : List dev_event) (hS : life_inv d)
    (h : device_prepare_locked d b = .ok (r, d', evs)) : life_inv d' := by
  unfold life_inv at hS
  obtain ⟨hq0, hq1, hq2, hq3, hq4, hq5, hq6, hq7⟩ := hS
  unfold device_prepare_locked at h
  unfold life_inv
  by_cases h1 : d.prepare_cnt = 0
  · rw [if_neg (by simp [h1])] at h
    cases hp : d.pcm with
    | none =>
      rw [hp] at h
      simp at h
    | some u =>
      rw [hp] at h
      dsimp only at h
      have hopen : 0 < d.open_cnt := hq6 (by rw [hp]; rfl)
      cases b
      · rw [if_neg (by simp)] at h
        simp only [Except.ok.injEq, Prod.mk.injEq] at h
        obtain ⟨-, hd, -⟩ := h
        subst hd
        try dsimp only
        exact ⟨hq0, hq1, hq2, hq3, hq4, hq5, hq6, hq7⟩
      · rw [if_pos rfl] at h
        simp only [Except.ok.injEq, Prod.mk.injEq] at h
        obtain ⟨-, hd, -⟩ := h
        subst hd
        try dsimp only
        refine ⟨?_, hq1, ?_, ?_, ?_, ?_, ?_, hq7⟩
        · omega
        · intro _; exact hopen
        · intro hx
          have hst := hq3 hx
          have := hq4 (by rw [hst]; decide)
          omega
        · intro _; omega
        · intro hx; exact absurd hopen (by omega)
        · intro _; exact hopen
  · rw [if_pos h1] at h
    simp only [Except.ok.injEq, Prod.mk.injEq] at h
    obtain ⟨-, hd, -⟩ := h
    subst hd
    try dsimp only
    refine ⟨?_, hq1, ?_, hq3, ?_, hq5, hq6, hq7⟩
    · omega
    · intro _; exact hq2 (by omega)
    · intro hx; have := hq4 hx; omega

/-- `device_start` preserves the lifecycle invariant. -/
theorem life_inv_start (d d' : device_obj) (r : Int)
    (evs : List dev_event) (hS : life_inv d)
    (h : device_start_locked d = .ok (r, d', evs)) : life_inv d' := by
  unfold life_inv at hS
  obtain ⟨hq0, hq1, hq2, hq3, hq4, hq5, hq6, hq7⟩ := hS
  unfold device_start_locked at h
  unfold life_inv
  by_cases h1 : d.state.toNat < device_state.DEV_PREPARED.toNat
  · rw [if_pos h1] at h
    simp only [Except.ok.injEq, Prod.mk.injEq] at h
    obtain ⟨-, hd, -⟩ := h
    subst hd
    try dsimp only
    exact ⟨hq0, hq1, hq2, hq3, hq4, hq5, hq6, hq7⟩
  · rw [if_neg h1] at h
    have hprep : 0 < d.prepare_cnt := by
      refine hq4 ?_
      simp only [device_state.toNat] at h1 ⊢
      omega
    have hopen : 0 < d.open_cnt := hq2 hprep
    by_cases h2 : d.start_cnt = 0
    · rw [if_neg (by simp [h2])] at h
      simp only [Except.ok.injEq, Prod.mk.injEq] at h
      obtain ⟨-, hd, -⟩ := h
      subst hd
      try dsimp only
      refine ⟨hq0, ?_, ?_, ?_, ?_, ?_, hq6, ?_⟩
      · omega
      · intro _; exact hopen
      · intro _; rfl
      · intro _; exact hprep
      · intro hx; exact absurd hopen (by omega)
      · intro _; exact hopen
    · rw [if_pos h2] at h
      simp only [Except.ok.injEq, Prod.mk.injEq] at h
      obtain ⟨-, hd, -⟩ := h
      subst hd
      try dsimp only
      refine ⟨hq0, ?_, ?_, ?_, hq4, hq5, hq6, ?_⟩
      · omega
      · intro _; exact hopen
      · intro _; exact hq3 (by omega)
      · intro _; exact hopen

/-- `device_stop` preserves the lifecycle invariant. -/
theorem life_inv_stop (d d' : device_obj) (b : Bool) (r : Int)
    (evs : List dev_event) (hS : life_inv d)
    (h : device_stop_locked d b = .ok (r, d', evs)) : life_inv d' := by
  unfold life_inv at hS
  obtain ⟨hq0, hq1, hq2, hq3, hq4, hq5, hq6, hq7⟩ := hS
  unfold device_stop_locked at h
  unfold life_inv
  by_cases h1 : d.start_cnt = 0
  · rw [if_pos h1] at h
    simp only [Except.ok.injEq, Prod.mk.injEq] at h
    obtain ⟨-, hd, -⟩ := h
    subst hd
    try dsimp only
    exact ⟨hq0, hq1, hq2, hq3, hq4, hq5, hq6, hq7⟩
  · rw [if_neg h1] at h
    have hst : d.state = .DEV_STARTED := hq3 (by omega)
    have hprep : 0 < d.prepare_cnt := hq4 (by rw [hst]; decide)
    have hopen : 0 < d.open_cnt := hq2 hprep
    by_cases h2 : d.start_cnt - 1 = 0
    · rw [if_pos h2] at h
      cases hp : d.pcm with
      | none =>
        rw [hp] at h
        simp at h
      | some u =>
        rw [hp] at h
        dsimp only at h
        simp only [Except.ok.injEq, Prod.mk.injEq] at h
        obtain ⟨-, hd, -⟩ := h
        subst hd
        try dsimp only
        refine ⟨hq0, ?_, ?_, ?_, ?_, ?_, ?_, ?_⟩
        · omega
        · intro _; exact hopen
        · intro hx; exact absurd hx (by omega)
        · intro _; exact hprep
        · intro hx; exact absurd hopen (by omega)
        · intro _; exact hopen
        · intro hx; exact absurd hx (by omega)
    · rw [if_neg h2] at h
      simp only [Except.ok.injEq, Prod.mk.injEq] at h
      obtain ⟨-, hd, -⟩ := h
      subst hd
      try dsimp only
      refine ⟨hq0, ?_, hq2, ?_, hq4, hq5, hq6, ?_⟩
      · omega
      · intro _; exact hst
      · intro _; exact hopen

/-- `device_close` preserves the lifecycle invariant. -/
theorem life_inv_close (d d' : device_obj) (b : Bool) (r : Int)
    (evs : List dev_event) (hS : life_inv d)
    (h : device_close_locked d b = .ok (r, d', evs)) : life_inv d' := by
  unfold life_inv at hS
  obtain ⟨hq0, hq1, hq2, hq3, hq4, hq5, hq6, hq7⟩ := hS
  unfold device_close_locked at h
  unfold life_inv
  by_cases h1 : d.open_cnt - 1 = 0
  · rw [if_pos h1] at h
    cases hp : d.pcm with
    | none =>
      rw [hp] at h
      simp at h
    | some u =>
      rw [hp] at h
      dsimp only at h
      simp only [Except.ok.injEq, Prod.mk.injEq] at h
      obtain ⟨-, hd, -⟩ := h
      subst hd
      try dsimp only
      refine ⟨le_refl 0, le_refl 0, ?_, ?_, ?_, ?_, ?_, ?_⟩
      · intro hx; exact absurd hx (by omega)
      · intro hx; exact absurd hx (by omega)
      · intro hx; exact absurd hx (by decide)
      · intro _; rfl
      · intro hx; exact absurd hx (by decide)
      · intro hx; exact absurd hx (by omega)
  · rw [if_neg h1] at h
    simp only [Except.ok.injEq, Prod.mk.injEq] at h
    obtain ⟨-, hd, -⟩ := h
    subst hd
    try dsimp only
    refine ⟨hq0, hq1, ?_, hq3, hq4, ?_, ?_, ?_⟩
    · intro hx; have := hq2 hx; omega
    · intro hx; exact hq5 (by omega)
    · intro hx; have := hq6 hx; omega
    · intro hx; have := hq7 hx; omega

/-- One lifecycle call preserves the invariant. -/
theorem life_inv_step (d d' : device_obj) (op : life_op) (r : Int)
    (evs : List dev_event) (hS : life_inv d)
    (h : life_step d op = .ok (r, d', evs)) : life_inv d' := by
  cases op with
  | op_open b => exact life_inv_open d d' b r evs hS h
  | op_prepare b => exact life_inv_prepare d d' b r evs hS h
  | op_start => exact life_inv_start d d' r evs hS h
  | op_stop b => exact life_inv_stop d d' b r evs hS h
  | op_close b => exact life_inv_close d d' b r evs hS h

/-- Every completed run from an invariant state ends in an invariant
state. -/
theorem life_inv_run :
    ∀ (tr : List life_op) (d d' : device_obj), life_inv d →
    life_run d tr = .ok d' → life_inv d' := by
  intro tr
  induction tr with
  | nil =>
    intro d d' hS h
    cases h
    exact hS
  | cons op tr ih =>
    intro d d' hS h
    unfold life_run at h
    cases hstep : life_step d op with
    | error k => rw [hstep] at h; cases h
    | ok p =>
      obtain ⟨r, d1, evs⟩ := p
      rw [hstep] at h
      exact ih d1 d' (life_inv_step d d1 op r evs hS hstep) h

/-- A freshly discovered device satisfies the invariant, whatever its
media config. -/
theorem life_inv_init (card pid : Nat) (cfg : agm_media_config) :
    life_inv (init_device_obj card pid cfg) := by
  unfold life_inv init_device_obj
  dsimp only
  refine ⟨le_refl 0, le_refl 0, ?_, ?_, ?_, ?_, ?_, ?_⟩
  · intro hx; exact absurd hx (by omega)
  · intro hx; exact absurd hx (by omega)
  · intro hx; exact absurd hx (by decide)
  · intro _; rfl
  · intro hx; exact absurd hx (by decide)
  · intro hx; exact absurd hx (by omega)

/-- The strengthened invariant implies the claimed one. -/
theorem life_inv_claim (d : device_obj) (hS : life_inv d) : claim_inv d := by
  unfold life_inv at hS
  obtain ⟨hq0, hq1, hq2, hq3, hq4, hq5, hq6, hq7⟩ := hS
  refine ⟨hq2, hq3, ?_⟩
  intro hx
  constructor
  · by_cases hy : 0 < d.prepare_cnt
    · exact absurd (hq2 hy) (by omega)
    · omega
  · by_cases hy : 0 < d.start_cnt
    · exact absurd (hq7 hy) (by omega)
    · omega

/-- Claim C3: the conjunction `prepare_count > 0 → open_count > 0`,
`start_count > 0 → state = STARTED` and
`open_count = 0 → prepare_count = 0 ∧ start_count = 0` holds in the initial
CLOSED state and after every completed sequence of
open/prepare/start/stop/close calls in which close is never invoked more
often than open. -/
theorem lifecycle_invariant :
    ∀ (card pid : Nat) (cfg : agm_media_config),
    claim_inv (init_device_obj card pid cfg) ∧
    (∀ (tr : List life_op) (d' : device_obj),
      closes_le_opens tr = true →
      life_run (init_device_obj card pid cfg) tr = .ok d' →
      claim_inv d') := by
  intro card pid cfg
  constructor
  · exact life_inv_claim _ (life_inv_init card pid cfg)
  · intro tr d' _ hrun
    exact life_inv_claim d' (life_inv_run tr _ d' (life_inv_init card pid cfg) hrun)

/-- Witness for `lifecycle_invariant`: a full
open-prepare-start-stop-close cycle on a 16-bit stereo device (a trace with
one open and one close), which ends back in the reset state. -/
theorem lifecycle_invariant_witness :
    closes_le_opens
      [life_op.op_open true, .op_prepare true, .op_start, .op_stop true,
       .op_close true] = true ∧
    claim_inv (init_device_obj 0 0 sample_cfg) :=
  ⟨by decide,
   (lifecycle_invariant 0 0 sample_cfg).2
     [.op_open true, .op_prepare true, .op_start, .op_stop true, .op_close true]
     (init_device_obj 0 0 sample_cfg) (by decide) rfl⟩
